import Mathlib

/-!
Shallow embedding of the event-driven e-commerce saga
(cart-service, order-service, payment-service, product-service).

Modelling conventions:
* Money amounts are exact rationals; Python's `round(x, 2)` is modelled by
  `round2` below.  Python rounds floats half-to-even while `round2` rounds
  half-up, but the two agree everywhere a half-cent tie cannot arise, which
  covers all statements proved here.
* Python dicts keyed by id are association lists with unique keys; in-place
  assignment `db[k] = v` is `upsert`.
* `publish_event` is fire-and-forget: its boolean outcome is supplied by the
  caller of a handler as an oracle argument and the handler records the
  attempted event; no handler branches on the outcome, mirroring the source,
  which ignores the return value of `publish_event`.
* Timestamps (`created_at`, `updated_at`, `added_at`, ...) and logging are
  omitted; fresh uuids are passed in as explicit arguments.
* HTTP responses are modelled by their status codes (`200`/`201` success,
  `400`/`402`/`404` errors); a 2xx code is what acknowledges an event
  delivery to the broker.
-/

namespace Saga

/-- Python's `round(x, 2)` on exact rationals:
multiply by 100, round to the nearest integer, divide by 100. -/
def round2 (x : ℚ) : ℚ := ((round (x * 100) : ℤ) : ℚ) / 100

/-- A line item of a cart (also the item snapshot stored inside orders). -/
structure CartItem where
  item_id : String
  product_id : String
  product_name : String
  quantity : Nat
  unit_price : ℚ
deriving DecidableEq

/-- A user's cart: `carts_db[user_id] = cart with items`. -/
structure Cart where
  user_id : String
  items : List CartItem
deriving DecidableEq

/-- Association-list store standing for a Python dict keyed by id. -/
abbrev Store (α : Type) := List (String × α)

/-- `db[k] = v`: replace the value at an existing key in place, or append. -/
def upsert {α : Type} (k : String) (v : α) : Store α → Store α
  | [] => [(k, v)]
  | (k', v') :: rest =>
      if k' = k then (k, v) :: rest else (k', v') :: upsert k v rest

abbrev CartStore := Store Cart

/-- `calculate_cart_total`: sum of `unit_price * quantity` over the items. -/
def calculate_cart_total (cart : Cart) : ℚ :=
  (cart.items.map (fun i => i.unit_price * (i.quantity : ℚ))).sum

/-- The `order` dict built by cart-service `checkout` and shipped as the
`order.created` event payload.  The payload's `status` and timestamps are
always overwritten by the order orchestrator, so they are omitted;
`order_id` is optional because the orchestrator reads it with
`order_data.get of order_id with a fresh uuid as default`. -/
structure OrderPayload where
  order_id : Option String
  user_id : String
  items : List CartItem
  subtotal : ℚ
  tax : ℚ
  total : ℚ
deriving DecidableEq

/-- Events published by cart-service handlers that matter to the claims. -/
inductive CartEvent
  | orderCreated (order : OrderPayload)
  | checkoutCompleted (user_id order_id : String) (total : ℚ)
deriving DecidableEq

/-- The order snapshot built inside `checkout`:
subtotal is the cart total, tax is 8 percent rounded to cents, and the
checkout total is `round of subtotal * 1.08 to 2 decimals`. -/
def checkout_order (oid user_id : String) (cart : Cart) : OrderPayload :=
  { order_id := some oid
    user_id := user_id
    items := cart.items
    subtotal := calculate_cart_total cart
    tax := round2 (calculate_cart_total cart * (8 / 100))
    total := round2 (calculate_cart_total cart * (108 / 100)) }

/-- `checkout(user_id)`: 404 if the cart does not exist, 400 if it is empty;
otherwise publish `order.created` with the full order payload, clear the
cart, and publish `cart.checkout_completed`.  `oid` is the fresh order id,
`p1`/`p2` are the broker outcomes of the two publishes (ignored by the
state change, as in the source).  Returns the new cart store, the attempted
events paired with their delivery outcome, and the HTTP status code. -/
def checkout (oid : String) (p1 p2 : Bool) (user_id : String)
    (carts : CartStore) : CartStore × List (CartEvent × Bool) × Nat :=
  match carts.lookup user_id with
  | none => (carts, [], 404)
  | some cart =>
      if cart.items = [] then (carts, [], 400)
      else
        let order := checkout_order oid user_id cart
        (upsert user_id { cart with items := [] } carts,
         [(CartEvent.orderCreated order, p1),
          (CartEvent.checkoutCompleted user_id oid order.total, p2)],
         201)

/-- cart-service `handle_product_event` (route `/events/product`):
on `product.updated`, when the payload carries a truthy product id and a
truthy (nonzero) price, rewrite `unit_price` on every cart item referencing
that product id.  Any other case acknowledges without touching the carts. -/
def handle_product_event (ty : String) (pid? : Option String)
    (price? : Option ℚ) (carts : CartStore) : CartStore × Nat :=
  if ty = "product.updated" then
    match pid?, price? with
    | some pid, some p =>
        if pid ≠ "" ∧ p ≠ 0 then
          (carts.map (fun uc =>
            (uc.1, { uc.2 with items := uc.2.items.map (fun it =>
              if it.product_id = pid then { it with unit_price := p }
              else it) })), 200)
        else (carts, 200)
    | _, _ => (carts, 200)
  else (carts, 200)

/-! ### Order service -/

/-- An order as stored in `orders_db` of the order service.  Every stored
order has `status`, `payment_status`, `shipping` and `total` set (sample
data, the direct POST path and the `order.created` handler all set them). -/
structure StoredOrder where
  order_id : String
  user_id : String
  items : List CartItem
  subtotal : ℚ
  tax : ℚ
  shipping : ℚ
  total : ℚ
  status : String
  payment_status : String
  payment_id : Option String := none
  payment_error : Option String := none
deriving DecidableEq

abbrev OrderStore := Store StoredOrder

/-- `ORDER_STATUS_FLOW`: the recognized order statuses. -/
def ORDER_STATUS_FLOW : List String :=
  ["pending", "confirmed", "payment_processing", "paid", "processing",
   "shipped", "delivered", "completed", "cancelled", "refunded"]

/-- Events published by order-service handlers. -/
inductive OrderSvcEvent
  | paymentRequested (order_id user_id : String) (amount : ℚ)
  | orderPlaced (order_id : String) (items : List CartItem)
  | orderConfirmed (order_id : String)
  | orderPaid (order_id : String) (payment_id : Option String)
  | statusChanged (order_id old_status new_status : String)
deriving DecidableEq

/-- The enrichment performed by `handle_order_event` on `order.created`:
spread the payload, force status `confirmed` and payment_status `pending`,
set the flat 5.99 shipping fee, and recompute the total as
`round of payload total plus 5.99 to 2 decimals`. -/
def enrich_order (oid : String) (od : OrderPayload) : StoredOrder :=
  { order_id := oid
    user_id := od.user_id
    items := od.items
    subtotal := od.subtotal
    tax := od.tax
    shipping := 599 / 100
    total := round2 (od.total + 599 / 100)
    status := "confirmed"
    payment_status := "pending" }

/-- order-service `handle_order_event` (route `/events/order`):
on `order.created`, reject a missing or empty order payload with 400;
otherwise store the enriched order under the payload's order id (or a
fresh uuid `freshId` if the payload has none) — overwriting any existing
entry — and publish `payment.requested`, `order.placed` and
`order.confirmed`.  Every other event type is acknowledged untouched. -/
def handle_order_event (freshId : String) (ty : String)
    (data : Option OrderPayload) (orders : OrderStore) :
    OrderStore × List OrderSvcEvent × Nat :=
  if ty = "order.created" then
    match data with
    | none => (orders, [], 400)
    | some od =>
        let oid := od.order_id.getD freshId
        let order := enrich_order oid od
        (upsert oid order orders,
         [OrderSvcEvent.paymentRequested oid od.user_id order.total,
          OrderSvcEvent.orderPlaced oid od.items,
          OrderSvcEvent.orderConfirmed oid],
         200)
  else (orders, [], 200)

/-- Payload of a `payment.completed` / `payment.failed` event as read by
the order service (`event_data.get` on each key). -/
structure PaymentEventData where
  order_id : Option String
  payment_id : Option String
  error : Option String
deriving DecidableEq

/-- order-service `handle_payment_event` (route `/events/payment`):
404 when the payload's order id is missing, falsy, or not in the store.
On `payment.completed`, mark the order paid, record the payment id and
publish `order.paid`; on `payment.failed`, mark it failed and record the
error; any other type is acknowledged untouched. -/
def handle_payment_event (ty : String) (data : PaymentEventData)
    (orders : OrderStore) : OrderStore × List OrderSvcEvent × Nat :=
  match data.order_id with
  | none => (orders, [], 404)
  | some oid =>
      if oid = "" then (orders, [], 404)
      else
        match orders.lookup oid with
        | none => (orders, [], 404)
        | some order =>
            if ty = "payment.completed" then
              (upsert oid { order with
                  payment_status := "paid"
                  status := "paid"
                  payment_id := data.payment_id } orders,
               [OrderSvcEvent.orderPaid oid data.payment_id], 200)
            else if ty = "payment.failed" then
              (upsert oid { order with
                  payment_status := "failed"
                  status := "payment_failed"
                  payment_error := some (data.error.getD "Unknown error") }
                orders,
               [], 200)
            else (orders, [], 200)

/-- order-service `update_order_status` (PUT `/orders/id/status`):
404 for an unknown order; 400 when the requested status is missing or not
in `ORDER_STATUS_FLOW`; otherwise overwrite the status unconditionally and
publish `order.status_changed`. -/
def update_order_status (oid : String) (new_status : Option String)
    (orders : OrderStore) : OrderStore × List OrderSvcEvent × Nat :=
  match orders.lookup oid with
  | none => (orders, [], 404)
  | some order =>
      match new_status with
      | some ns =>
          if ns ∈ ORDER_STATUS_FLOW then
            (upsert oid { order with status := ns } orders,
             [OrderSvcEvent.statusChanged oid order.status ns], 200)
          else (orders, [], 400)
      | none => (orders, [], 400)

/-- order-service `create_order` (direct POST `/orders`): compute subtotal,
8 percent tax rounded to cents, the flat 5.99 shipping and the rounded
total; store the order as `pending` and publish `payment.requested`. -/
def create_order (oid user_id : String) (items : List CartItem)
    (orders : OrderStore) : OrderStore × List OrderSvcEvent × Nat :=
  let subtotal := (items.map (fun i => i.unit_price * (i.quantity : ℚ))).sum
  let tax := round2 (subtotal * (8 / 100))
  let total := round2 (subtotal + tax + 599 / 100)
  let order : StoredOrder :=
    { order_id := oid, user_id := user_id, items := items
      subtotal := subtotal, tax := tax, shipping := 599 / 100
      total := total, status := "pending", payment_status := "pending" }
  (upsert oid order orders,
   [OrderSvcEvent.paymentRequested oid user_id total], 201)

/-! ### Payment service -/

/-- A payment record in `payments_db` (fields relevant to refunds). -/
structure Payment where
  payment_id : String
  order_id : String
  user_id : String
  amount : ℚ
  status : String
  refund_id : Option String := none
deriving DecidableEq

abbrev PaymentStore := Store Payment

/-- Events published by payment-service handlers. -/
inductive PaymentSvcEvent
  | paymentRefunded (payment_id refund_id order_id : String) (amount : ℚ)
deriving DecidableEq

/-- payment-service `refund_payment` (POST `/payments/id/refund`):
404 for an unknown payment; 400 when its status is not `completed`;
otherwise set status `refunded`, record the fresh refund id and publish
`payment.refunded`. -/
def refund_payment (refundId pid : String) (payments : PaymentStore) :
    PaymentStore × List PaymentSvcEvent × Nat :=
  match payments.lookup pid with
  | none => (payments, [], 404)
  | some p =>
      if p.status ≠ "completed" then (payments, [], 400)
      else
        (upsert pid { p with status := "refunded",
                             refund_id := some refundId } payments,
         [PaymentSvcEvent.paymentRefunded pid refundId p.order_id p.amount],
         200)

/-! ### Product service -/

/-- A product in `products_db`.  Stock is an integer: nothing in the event
path keeps it nonnegative. -/
structure Product where
  id : String
  name : String
  price : ℚ
  stock : Int
deriving DecidableEq

abbrev ProductStore := Store Product

/-- Events published by product-service handlers. -/
inductive ProductSvcEvent
  | stockUpdated (product_id : String) (old_stock new_stock change : Int)
deriving DecidableEq

/-- product-service `update_stock` (PATCH `/products/id/stock`):
404 for an unknown product; when the adjusted stock would be negative,
reject with 400 (insufficient stock) leaving the store untouched;
otherwise store the new stock and publish `product.stock_updated`. -/
def update_stock (pid : String) (quantity : Int)
    (products : ProductStore) : ProductStore × List ProductSvcEvent × Nat :=
  match products.lookup pid with
  | none => (products, [], 404)
  | some p =>
      let new_stock := p.stock + quantity
      if new_stock < 0 then (products, [], 400)
      else
        (upsert pid { p with stock := new_stock } products,
         [ProductSvcEvent.stockUpdated pid p.stock new_stock quantity], 200)

/-- One line item of an `order.placed` event applied to the product store:
decrement the product's stock by the item quantity, with no sufficiency
check; items for unknown products are skipped. -/
def apply_order_item (products : ProductStore) (item : CartItem) :
    ProductStore :=
  match products.lookup item.product_id with
  | none => products
  | some p =>
      upsert item.product_id { p with stock := p.stock - (item.quantity : Int) }
        products

/-- product-service `handle_order_event` (route `/events/order`):
on `order.placed`, decrement stock for each line item in sequence;
any other event type is acknowledged untouched. -/
def handle_order_placed (ty : String) (items : List CartItem)
    (products : ProductStore) : ProductStore × Nat :=
  if ty = "order.placed" then (items.foldl apply_order_item products, 200)
  else (products, 200)

/-! ### Concrete fixtures used by witnesses and counterexamples -/

/-- A sample cart item: quantity 2 at a unit price of 150. -/
def sampleItem : CartItem :=
  { item_id := "ci-1", product_id := "prod-9", product_name := "Widget",
    quantity := 2, unit_price := 150 }

/-- A sample cart holding exactly `sampleItem`. -/
def sampleCart : Cart := { user_id := "user-1", items := [sampleItem] }

/-- A sample `order.created` payload as produced by a checkout. -/
def samplePayload : OrderPayload :=
  { order_id := some "order-1", user_id := "user-1", items := [sampleItem],
    subtotal := 300, tax := 24, total := 324 }

/-- A sample stored order that is already paid. -/
def samplePaidOrder : StoredOrder :=
  { order_id := "order-1", user_id := "user-1", items := [sampleItem],
    subtotal := 300, tax := 24, shipping := 599 / 100, total := 32999 / 100,
    status := "paid", payment_status := "paid", payment_id := some "pay-1" }

/-- A sample completed payment. -/
def sampleCompletedPayment : Payment :=
  { payment_id := "pay-1", order_id := "order-1", user_id := "user-1",
    amount := 32999 / 100, status := "completed" }

/-- A sample product with one unit of stock. -/
def sampleLowStockProduct : Product :=
  { id := "prod-9", name := "Widget", price := 150, stock := 1 }

/-- A cart store with one matching and one non-matching item, used by the
C9 witness. -/
def mixedCartStore : CartStore :=
  [("user-1",
    { user_id := "user-1",
      items := [{ item_id := "ci-1", product_id := "prod-9",
                  product_name := "Widget", quantity := 2,
                  unit_price := 150 },
                { item_id := "ci-2", product_id := "prod-8",
                  product_name := "Gadget", quantity := 1,
                  unit_price := 30 }] })]

/-! ### Store lemmas -/

theorem lookup_upsert_self {α : Type} (k : String) (v : α) (l : Store α) :
    (upsert k v l).lookup k = some v := by
  induction l with
  | nil => simp [upsert, List.lookup]
  | cons p t ih =>
      obtain ⟨k', v'⟩ := p
      by_cases hk : k' = k
      · subst hk
        simp [upsert, List.lookup]
      · have hb : (k == k') = false := by
          simp [Ne.symm hk]
        simp only [upsert, if_neg hk]
        rw [List.lookup]
        simp [hb, ih]

theorem upsert_upsert {α : Type} (k : String) (v v' : α) (l : Store α) :
    upsert k v (upsert k v' l) = upsert k v l := by
  induction l with
  | nil => simp [upsert]
  | cons p t ih =>
      obtain ⟨k', w⟩ := p
      by_cases hk : k' = k
      · subst hk
        simp [upsert]
      · simp [upsert, hk, ih]

theorem countP_key_zero {α : Type} (k : String) (l : Store α)
    (h : k ∉ l.map Prod.fst) :
    l.countP (fun p => p.1 == k) = 0 := by
  induction l with
  | nil => simp
  | cons p t ih =>
      simp only [List.map_cons, List.mem_cons] at h
      push_neg at h
      rw [List.countP_cons]
      simp [Ne.symm h.1, ih h.2]

theorem countP_upsert_self {α : Type} (k : String) (v : α) (l : Store α)
    (h : (l.map Prod.fst).Nodup) :
    (upsert k v l).countP (fun p => p.1 == k) = 1 := by
  induction l with
  | nil => simp [upsert]
  | cons p t ih =>
      obtain ⟨k', w⟩ := p
      simp only [List.map_cons, List.nodup_cons] at h
      by_cases hk : k' = k
      · subst hk
        have he : upsert k' v ((k', w) :: t) = (k', v) :: t := by
          simp [upsert]
        rw [he, List.countP_cons]
        simp [countP_key_zero k' t h.1]
      · have he : upsert k v ((k', w) :: t) = (k', w) :: upsert k v t := by
          simp [upsert, hk]
        rw [he, List.countP_cons]
        simp [hk, ih h.2]

/-! ### Rounding lemmas -/

/-- `round2` distributes over adding an exact number of cents. -/
theorem round2_add_cents (x : ℚ) (n : ℤ) :
    round2 (x + (n : ℚ) / 100) = round2 x + (n : ℚ) / 100 := by
  unfold round2
  have h : (x + (n : ℚ) / 100) * 100 = x * 100 + (n : ℚ) := by ring
  rw [h, round_add_int]
  push_cast
  ring

/-- `round2` is the identity on exact numbers of cents. -/
theorem round2_cents (n : ℤ) : round2 ((n : ℚ) / 100) = (n : ℚ) / 100 := by
  unfold round2
  have h : (n : ℚ) / 100 * 100 = (n : ℚ) := by ring
  rw [h, round_intCast]

/-- The result of `round2` is an exact number of cents. -/
theorem round2_eq_cents (x : ℚ) :
    ∃ m : ℤ, round2 x = (m : ℚ) / 100 :=
  ⟨round (x * 100), rfl⟩

/-- `round2` distributes over adding the flat 5.99 shipping fee. -/
theorem round2_add_fee (x : ℚ) :
    round2 (x + 599 / 100) = round2 x + 599 / 100 := by
  have h := round2_add_cents x 599
  push_cast at h
  exact h

/-- For a subtotal that is an exact number of cents, rounding the
8-percent-inclusive total equals the subtotal plus the rounded tax. -/
theorem round2_mul_108 (x : ℚ) (k : ℤ) (hx : x * 100 = (k : ℚ)) :
    round2 (x * (108 / 100)) = x + round2 (x * (8 / 100)) := by
  unfold round2
  have h1 : x * (108 / 100) * 100 = (k : ℚ) + x * 8 := by
    rw [← hx]; ring
  have h2 : x * (8 / 100) * 100 = x * 8 := by ring
  have hx' : x = (k : ℚ) / 100 := by
    rw [eq_div_iff (by norm_num : (100 : ℚ) ≠ 0)]
    exact hx
  rw [h1, h2, round_int_add, hx']
  push_cast
  ring

/-- A cart whose unit prices are exact cents has a subtotal in exact
cents. -/
theorem cents_sum (l : List CartItem)
    (h : ∀ it ∈ l, ∃ k : ℤ, it.unit_price = (k : ℚ) / 100) :
    ∃ K : ℤ,
      (l.map (fun i => i.unit_price * (i.quantity : ℚ))).sum = (K : ℚ) / 100 := by
  induction l with
  | nil => exact ⟨0, by simp⟩
  | cons a t ih =>
      obtain ⟨k, hk⟩ := h a (by simp)
      obtain ⟨K, hK⟩ := ih (fun it hit => h it (by simp [hit]))
      refine ⟨k * (a.quantity : ℤ) + K, ?_⟩
      simp only [List.map_cons, List.sum_cons, hk, hK]
      push_cast
      ring

/-! ### C1 — payment.completed handling -/

/-- C1, counterexample.  The claim says a `payment.completed` delivery for
an unknown order is acknowledged (logged, no error response).  In the code
the handler answers 404 — an error response that the broker treats as a
failed delivery — so the claim as stated is false.  (The no-op half is
true: the store is left unchanged and no synthetic order is created.) -/
theorem payment_completed_unknown_order_not_acked :
    handle_payment_event "payment.completed"
        { order_id := some "order-7", payment_id := some "pay-1",
          error := none } [] = ([], [], 404) ∧
    (404 : Nat) ≠ 200 := by
  refine ⟨?_, by norm_num⟩
  simp [handle_payment_event, List.lookup]

/-- C1 (amended): for a `payment.completed` event whose payload carries a
(truthy) `order_id`: if the order exists, the handler sets its status and
payment_status to `paid`, records the event's `payment_id`, and publishes
`order.paid`; if the order does not exist, the store is untouched and no
synthetic order is created, but the handler responds 404 (an error
response, not an acknowledgment). -/
theorem payment_completed_spec (ty : String) (d : PaymentEventData)
    (oid : String) (orders : OrderStore)
    (hty : ty = "payment.completed") (hoid : d.order_id = some oid)
    (hne : oid ≠ "") :
    (∀ o, orders.lookup oid = some o →
        handle_payment_event ty d orders =
          (upsert oid { o with payment_status := "paid", status := "paid",
                               payment_id := d.payment_id } orders,
           [OrderSvcEvent.orderPaid oid d.payment_id], 200)) ∧
    (orders.lookup oid = none →
        handle_payment_event ty d orders = (orders, [], 404)) := by
  subst hty
  constructor
  · intro o ho
    simp [handle_payment_event, hoid, hne, ho]
  · intro ho
    simp [handle_payment_event, hoid, hne, ho]

/-- C1, witness: the amended theorem applied at a concrete paid order and
at a concrete unknown order. -/
theorem payment_completed_spec_witness :
    handle_payment_event "payment.completed"
        { order_id := some "order-1", payment_id := some "pay-2",
          error := none } [("order-1", samplePaidOrder)] =
      (upsert "order-1"
         { samplePaidOrder with payment_status := "paid", status := "paid",
                                payment_id := some "pay-2" }
         [("order-1", samplePaidOrder)],
       [OrderSvcEvent.orderPaid "order-1" (some "pay-2")], 200) :=
  (payment_completed_spec "payment.completed"
      { order_id := some "order-1", payment_id := some "pay-2", error := none }
      "order-1" [("order-1", samplePaidOrder)] rfl rfl
      (by simp)).1 samplePaidOrder (by simp [List.lookup])

/-! ### C2 — order.created redelivery idempotency -/

/-- C2: processing the same `order.created` envelope twice (identical
payload, hence identical `order_id`, as every checkout payload carries one)
leaves the same order store as processing it once, and that store holds
exactly one order for the checkout's order id.  The fresh fallback ids
`f1`/`f2` of the two deliveries are arbitrary: they are unused because the
payload carries its order id. -/
theorem order_created_redelivery_idempotent (f1 f2 ty : String)
    (od : OrderPayload) (oid : String) (orders : OrderStore)
    (hty : ty = "order.created") (hoid : od.order_id = some oid)
    (hnd : (orders.map Prod.fst).Nodup) :
    (handle_order_event f2 ty (some od)
        (handle_order_event f1 ty (some od) orders).1).1 =
      (handle_order_event f1 ty (some od) orders).1 ∧
    (handle_order_event f1 ty (some od) orders).1.countP
        (fun p => p.1 == oid) = 1 := by
  subst hty
  simp only [handle_order_event, if_pos rfl, hoid, Option.getD_some]
  exact ⟨upsert_upsert oid (enrich_order oid od) (enrich_order oid od) orders,
         countP_upsert_self oid (enrich_order oid od) orders hnd⟩

/-- C2, witness: redelivering a concrete checkout payload to a store that
already processed it changes nothing, and the store holds exactly one
order for `order-1`. -/
theorem order_created_redelivery_idempotent_witness :
    (handle_order_event "fresh-2" "order.created" (some samplePayload)
        (handle_order_event "fresh-1" "order.created" (some samplePayload)
          []).1).1 =
      (handle_order_event "fresh-1" "order.created" (some samplePayload)
        []).1 ∧
    (handle_order_event "fresh-1" "order.created" (some samplePayload)
        []).1.countP (fun p => p.1 == "order-1") = 1 :=
  order_created_redelivery_idempotent "fresh-1" "fresh-2" "order.created"
    samplePayload "order-1" [] rfl rfl (by simp)

/-! ### C10 — order.created overwrites an existing order -/

/-- C10: an `order.created` event whose payload carries an `order_id`
already present in the store — whatever the stored order's state —
unconditionally replaces the stored order with the re-enriched payload
(status reset to `confirmed`, payment_status to `pending`, shipping 5.99
re-applied to the payload total) and re-publishes `payment.requested`,
`order.placed` and `order.confirmed`.  The fresh fallback id `f` is
arbitrary and unused, so the result is independent of the envelope id. -/
theorem order_created_overwrites_existing (f ty : String) (od : OrderPayload)
    (oid : String) (orders : OrderStore) (prev : StoredOrder)
    (hty : ty = "order.created") (hoid : od.order_id = some oid)
    (_hprev : orders.lookup oid = some prev) :
    (handle_order_event f ty (some od) orders).1.lookup oid =
      some (enrich_order oid od) ∧
    (enrich_order oid od).status = "confirmed" ∧
    (enrich_order oid od).payment_status = "pending" ∧
    (enrich_order oid od).total = round2 (od.total + 599 / 100) ∧
    (handle_order_event f ty (some od) orders).2.1 =
      [OrderSvcEvent.paymentRequested oid od.user_id
         (round2 (od.total + 599 / 100)),
       OrderSvcEvent.orderPlaced oid od.items,
       OrderSvcEvent.orderConfirmed oid] := by
  subst hty
  simp only [handle_order_event, if_pos rfl, hoid, Option.getD_some]
  exact ⟨lookup_upsert_self oid (enrich_order oid od) orders,
         rfl, rfl, rfl, rfl⟩

/-- C10, witness: redelivering the payload over a store whose `order-1` is
already `paid` resets it to `confirmed`/`pending` and re-emits the three
events. -/
theorem order_created_overwrites_existing_witness :
    (handle_order_event "fresh-1" "order.created" (some samplePayload)
        [("order-1", samplePaidOrder)]).1.lookup "order-1" =
      some (enrich_order "order-1" samplePayload) ∧
    (enrich_order "order-1" samplePayload).status = "confirmed" ∧
    (enrich_order "order-1" samplePayload).payment_status = "pending" ∧
    (enrich_order "order-1" samplePayload).total =
      round2 ((324 : ℚ) + 599 / 100) ∧
    (handle_order_event "fresh-1" "order.created" (some samplePayload)
        [("order-1", samplePaidOrder)]).2.1 =
      [OrderSvcEvent.paymentRequested "order-1" "user-1"
         (round2 ((324 : ℚ) + 599 / 100)),
       OrderSvcEvent.orderPlaced "order-1" [sampleItem],
       OrderSvcEvent.orderConfirmed "order-1"] :=
  order_created_overwrites_existing "fresh-1" "order.created" samplePayload
    "order-1" [("order-1", samplePaidOrder)] samplePaidOrder rfl rfl
    (by simp [List.lookup])

/-! ### C7 — manual status update -/

/-- C7: on an existing order, `update_order_status` fails with 400 (invalid
status) exactly when the requested status is not one of the ten recognized
statuses, leaving the store untouched; otherwise it unconditionally
overwrites the order's status — the old status is arbitrary, so any jump
such as `completed` to `pending` is accepted — and publishes
`order.status_changed`. -/
theorem update_order_status_spec (oid ns : String) (orders : OrderStore)
    (order : StoredOrder) (h : orders.lookup oid = some order) :
    (ns ∉ ORDER_STATUS_FLOW →
        update_order_status oid (some ns) orders = (orders, [], 400)) ∧
    (ns ∈ ORDER_STATUS_FLOW →
        update_order_status oid (some ns) orders =
          (upsert oid { order with status := ns } orders,
           [OrderSvcEvent.statusChanged oid order.status ns], 200)) := by
  constructor
  · intro hns
    simp [update_order_status, h, hns]
  · intro hns
    simp [update_order_status, h, hns]

/-- C7, witness: the jump `completed` to `pending` is accepted on a
concrete order. -/
theorem update_order_status_spec_witness :
    update_order_status "order-1" (some "pending")
        [("order-1", { samplePaidOrder with status := "completed" })] =
      (upsert "order-1"
         { { samplePaidOrder with status := "completed" } with
             status := "pending" }
         [("order-1", { samplePaidOrder with status := "completed" })],
       [OrderSvcEvent.statusChanged "order-1" "completed" "pending"], 200) :=
  (update_order_status_spec "order-1" "pending"
      [("order-1", { samplePaidOrder with status := "completed" })]
      { samplePaidOrder with status := "completed" }
      (by simp [List.lookup])).2 (by simp [ORDER_STATUS_FLOW])

/-! ### C8 — refunds -/

/-- C8: `refund_payment` answers 404 when the payment id is unknown and
400 when the payment's status is not `completed`, leaving the payment
store untouched in both cases; on a `completed` payment it sets the status
to `refunded`, records the fresh refund id, and publishes
`payment.refunded`. -/
theorem refund_payment_spec (rid pid : String) (payments : PaymentStore) :
    (payments.lookup pid = none →
        refund_payment rid pid payments = (payments, [], 404)) ∧
    (∀ p, payments.lookup pid = some p → p.status ≠ "completed" →
        refund_payment rid pid payments = (payments, [], 400)) ∧
    (∀ p, payments.lookup pid = some p → p.status = "completed" →
        refund_payment rid pid payments =
          (upsert pid { p with status := "refunded",
                               refund_id := some rid } payments,
           [PaymentSvcEvent.paymentRefunded pid rid p.order_id p.amount],
           200)) := by
  refine ⟨fun h => by simp [refund_payment, h], fun p hp hs => ?_,
          fun p hp hs => ?_⟩
  · simp [refund_payment, hp, hs]
  · simp [refund_payment, hp, hs]

/-- C8, witness: refunding a concrete completed payment transitions it to
`refunded` and publishes `payment.refunded`. -/
theorem refund_payment_spec_witness :
    refund_payment "ref-1" "pay-1" [("pay-1", sampleCompletedPayment)] =
      (upsert "pay-1"
         { sampleCompletedPayment with status := "refunded",
                                       refund_id := some "ref-1" }
         [("pay-1", sampleCompletedPayment)],
       [PaymentSvcEvent.paymentRefunded "pay-1" "ref-1" "order-1"
          (32999 / 100)],
       200) :=
  (refund_payment_spec "ref-1" "pay-1"
      [("pay-1", sampleCompletedPayment)]).2.2 sampleCompletedPayment
    (by simp [List.lookup]) rfl

/-! ### C6 — checkout -/

/-- C6: on an existing cart, `checkout` fails with 400 (empty cart) and
leaves the cart store untouched when there are no items; with at least one
item it builds the order snapshot (subtotal, 8 percent tax rounded to
cents, total), publishes `order.created` carrying the full order payload,
clears the cart's items, and publishes `cart.checkout_completed` — and the
publish outcomes `p1`/`p2` are arbitrary, so the cart is cleared even when
the `order.created` publish fails. -/
theorem checkout_spec (oid uid : String) (p1 p2 : Bool) (carts : CartStore)
    (cart : Cart) (hc : carts.lookup uid = some cart) :
    (cart.items = [] → checkout oid p1 p2 uid carts = (carts, [], 400)) ∧
    (cart.items ≠ [] →
        checkout oid p1 p2 uid carts =
          (upsert uid { cart with items := [] } carts,
           [(CartEvent.orderCreated (checkout_order oid uid cart), p1),
            (CartEvent.checkoutCompleted uid oid
               (checkout_order oid uid cart).total, p2)],
           201)) ∧
    (checkout_order oid uid cart).items = cart.items ∧
    (checkout_order oid uid cart).subtotal = calculate_cart_total cart ∧
    (checkout_order oid uid cart).tax =
      round2 (calculate_cart_total cart * (8 / 100)) ∧
    (checkout_order oid uid cart).total =
      round2 (calculate_cart_total cart * (108 / 100)) := by
  refine ⟨fun he => by simp [checkout, hc, he],
          fun he => by simp [checkout, hc, he], rfl, rfl, rfl, rfl⟩

/-- C6, witness: checking out the sample cart with both publishes failing
(`false`, `false`) still clears the cart and reports the events as
attempted. -/
theorem checkout_spec_witness :
    checkout "order-1" false false "user-1" [("user-1", sampleCart)] =
      (upsert "user-1" { sampleCart with items := [] }
         [("user-1", sampleCart)],
       [(CartEvent.orderCreated (checkout_order "order-1" "user-1" sampleCart),
         false),
        (CartEvent.checkoutCompleted "user-1" "order-1"
           (checkout_order "order-1" "user-1" sampleCart).total, false)],
       201) :=
  ((checkout_spec "order-1" "user-1" false false [("user-1", sampleCart)]
      sampleCart (by simp [List.lookup])).2.1) (by simp [sampleCart])

/-! ### C4 — the 150 x 2 scenario -/

/-- C4, counterexample.  The claim (and spec section 8) says the
`order.created` payload for a cart of one item at unit price 150 and
quantity 2 has total 300.00 pre-shipping, and 305.99 once confirmed.  The
code computes the checkout total as `round of subtotal * 1.08`, which is
324.00 with tax included, and the confirmed stored total as 324.00 + 5.99
= 329.99 — not 300.00 / 305.99. -/
theorem checkout_scenario_totals_cex :
    (checkout_order "order-1" "user-1" sampleCart).total = 324 ∧
    (checkout_order "order-1" "user-1" sampleCart).total ≠ 300 ∧
    (enrich_order "order-1"
        (checkout_order "order-1" "user-1" sampleCart)).total = 32999 / 100 ∧
    (enrich_order "order-1"
        (checkout_order "order-1" "user-1" sampleCart)).total ≠
      30599 / 100 := by
  have h1 : calculate_cart_total sampleCart = 300 := by
    norm_num [calculate_cart_total, sampleCart, sampleItem]
  have h2 : (checkout_order "order-1" "user-1" sampleCart).total = 324 := by
    simp only [checkout_order, h1]
    norm_num [round2, round_eq]
  have h3 : (enrich_order "order-1"
      (checkout_order "order-1" "user-1" sampleCart)).total = 32999 / 100 := by
    simp only [enrich_order, h2]
    norm_num [round2, round_eq]
  refine ⟨h2, by rw [h2]; norm_num, h3, by rw [h3]; norm_num⟩

/-- C4 (amended): for the cart of one item at unit price 150 and quantity
2, the emitted `order.created` payload has subtotal 300.00, tax 24.00 and
total 324.00 (the checkout total already includes the tax), and after the
orchestrator confirms the order its stored total is 329.99 — the 5.99
shipping fee added exactly once to the checkout total. -/
theorem checkout_scenario_totals :
    (checkout_order "order-1" "user-1" sampleCart).subtotal = 300 ∧
    (checkout_order "order-1" "user-1" sampleCart).tax = 24 ∧
    (checkout_order "order-1" "user-1" sampleCart).total = 324 ∧
    (enrich_order "order-1"
        (checkout_order "order-1" "user-1" sampleCart)).shipping = 599 / 100 ∧
    (enrich_order "order-1"
        (checkout_order "order-1" "user-1" sampleCart)).total =
      32999 / 100 := by
  have h1 : calculate_cart_total sampleCart = 300 := by
    norm_num [calculate_cart_total, sampleCart, sampleItem]
  have h2 : (checkout_order "order-1" "user-1" sampleCart).total = 324 := by
    simp only [checkout_order, h1]
    norm_num [round2, round_eq]
  refine ⟨by simp [checkout_order, h1], ?_, h2, rfl, ?_⟩
  · simp only [checkout_order, h1]
    norm_num [round2, round_eq]
  · simp only [enrich_order, h2]
    norm_num [round2, round_eq]

/-! ### C5 — the order total invariant -/

/-- C5: for every valid checkout (cart present, nonempty, unit prices an
exact number of cents — the money domain intended by "valid") that reaches
order confirmation, the emitted `order.created` payload is tax-inclusive
but pre-shipping, and the confirmed stored order satisfies
`total = round2 (subtotal * 1.08 + shipping)` and
`total = round2 (subtotal + tax + shipping)`, with the flat 5.99 shipping
fee added exactly once, at confirmation; the subtotal is the sum of
`unit_price * quantity` over the immutable item snapshot. -/
theorem confirmed_order_total_spec (oid fresh uid : String) (p1 p2 : Bool)
    (carts : CartStore) (orders : OrderStore) (cart : Cart)
    (hc : carts.lookup uid = some cart) (hne : cart.items ≠ [])
    (hcents : ∀ it ∈ cart.items, ∃ k : ℤ, it.unit_price = (k : ℚ) / 100) :
    ∃ payload stored,
      (checkout oid p1 p2 uid carts).2.1.map Prod.fst =
        [CartEvent.orderCreated payload,
         CartEvent.checkoutCompleted uid oid payload.total] ∧
      (handle_order_event fresh "order.created" (some payload)
          orders).1.lookup oid = some stored ∧
      stored.items = cart.items ∧
      stored.subtotal =
        (stored.items.map (fun i => i.unit_price * (i.quantity : ℚ))).sum ∧
      stored.shipping = 599 / 100 ∧
      payload.total = round2 (stored.subtotal * (108 / 100)) ∧
      stored.total = payload.total + 599 / 100 ∧
      stored.total = round2 (stored.subtotal * (108 / 100) + 599 / 100) ∧
      stored.total =
        round2 (stored.subtotal + stored.tax + stored.shipping) := by
  refine ⟨checkout_order oid uid cart, enrich_order oid (checkout_order oid uid cart),
          ?_, ?_, rfl, rfl, rfl, rfl, ?_, ?_, ?_⟩
  · simp [checkout, hc, hne]
  · simp only [handle_order_event, if_pos rfl, checkout_order,
      Option.getD_some]
    exact lookup_upsert_self oid _ orders
  · -- stored.total = payload.total + 5.99: the payload total is an exact
    -- number of cents, so the final rounding is the identity on it.
    obtain ⟨m, hm⟩ := round2_eq_cents (calculate_cart_total cart * (108 / 100))
    show round2 (round2 (calculate_cart_total cart * (108 / 100)) + 599 / 100)
        = round2 (calculate_cart_total cart * (108 / 100)) + 599 / 100
    rw [round2_add_fee, hm, round2_cents]
  · -- total = round2 (subtotal * 1.08 + 5.99): adding the fee commutes
    -- with both roundings.
    show round2 (round2 (calculate_cart_total cart * (108 / 100)) + 599 / 100)
        = round2 (calculate_cart_total cart * (108 / 100) + 599 / 100)
    obtain ⟨m, hm⟩ := round2_eq_cents (calculate_cart_total cart * (108 / 100))
    rw [round2_add_fee, round2_add_fee, hm, round2_cents]
  · -- total = round2 (subtotal + tax + shipping): with a cent-valued
    -- subtotal, the rounded tax-inclusive total is subtotal plus tax.
    obtain ⟨K, hK⟩ := cents_sum cart.items hcents
    have hKc : calculate_cart_total cart * 100 = (K : ℚ) := by
      unfold calculate_cart_total
      rw [hK]
      ring
    show round2 (round2 (calculate_cart_total cart * (108 / 100)) + 599 / 100)
        = round2 (calculate_cart_total cart
            + round2 (calculate_cart_total cart * (8 / 100)) + 599 / 100)
    rw [round2_mul_108 (calculate_cart_total cart) K hKc]

/-- C5, witness: the invariant instantiated on the sample cart (unit price
150 = 15000 cents, quantity 2). -/
theorem confirmed_order_total_spec_witness :
    ∃ payload stored,
      (checkout "order-1" true true "user-1"
          [("user-1", sampleCart)]).2.1.map Prod.fst =
        [CartEvent.orderCreated payload,
         CartEvent.checkoutCompleted "user-1" "order-1" payload.total] ∧
      (handle_order_event "fresh-1" "order.created" (some payload)
          []).1.lookup "order-1" = some stored ∧
      stored.items = sampleCart.items ∧
      stored.subtotal =
        (stored.items.map (fun i => i.unit_price * (i.quantity : ℚ))).sum ∧
      stored.shipping = 599 / 100 ∧
      payload.total = round2 (stored.subtotal * (108 / 100)) ∧
      stored.total = payload.total + 599 / 100 ∧
      stored.total = round2 (stored.subtotal * (108 / 100) + 599 / 100) ∧
      stored.total =
        round2 (stored.subtotal + stored.tax + stored.shipping) :=
  confirmed_order_total_spec "order-1" "fresh-1" "user-1" true true
    [("user-1", sampleCart)] [] sampleCart (by simp [List.lookup])
    (by simp [sampleCart])
    (by
      intro it hit
      simp only [sampleCart, List.mem_singleton] at hit
      exact ⟨15000, by rw [hit]; norm_num [sampleItem]⟩)

/-! ### C3 — stock nonnegativity -/

/-- C3, counterexample.  The claim says stock never goes negative after
any sequence of product operations including `order.placed` handling.  The
event path decrements unconditionally: an `order.placed` for quantity 2
against stock 1 leaves stock -1. -/
theorem order_placed_drives_stock_negative :
    ((handle_order_placed "order.placed" [sampleItem]
        [("prod-9", sampleLowStockProduct)]).1.lookup "prod-9").map
      Product.stock = some (-1) ∧
    ¬ (0 : Int) ≤ -1 := by
  constructor
  · simp [handle_order_placed, apply_order_item, upsert, sampleItem,
      sampleLowStockProduct, List.lookup]
  · norm_num

/-- C3 (amended): only the synchronous PATCH stock path enforces the
nonnegative floor: on an existing product it rejects a change that would
make stock negative with a 400 insufficient-stock error, leaving the
product store untouched, and otherwise stores the (nonnegative) adjusted
stock and publishes `product.stock_updated`.  The `order.placed` event
path has no such check and can drive stock negative (see the
counterexample), so the global invariant does not hold. -/
theorem update_stock_floor_spec (pid : String) (q : Int)
    (products : ProductStore) (p : Product)
    (h : products.lookup pid = some p) :
    (p.stock + q < 0 → update_stock pid q products = (products, [], 400)) ∧
    (0 ≤ p.stock + q →
        update_stock pid q products =
          (upsert pid { p with stock := p.stock + q } products,
           [ProductSvcEvent.stockUpdated pid p.stock (p.stock + q) q],
           200)) := by
  constructor
  · intro hq
    simp [update_stock, h, hq]
  · intro hq
    simp [update_stock, h, not_lt.mpr hq]

/-- C3, witness: a PATCH of -2 against stock 1 is rejected and the store
is unchanged. -/
theorem update_stock_floor_spec_witness :
    update_stock "prod-9" (-2) [("prod-9", sampleLowStockProduct)] =
      ([("prod-9", sampleLowStockProduct)], [], 400) :=
  (update_stock_floor_spec "prod-9" (-2)
      [("prod-9", sampleLowStockProduct)] sampleLowStockProduct
      (by simp [List.lookup])).1
    (by norm_num [sampleLowStockProduct])

/-! ### C9 — product.updated price sync -/

/-- C9, counterexample.  The claim says every `product.updated` with a
changed price `p` rewrites matching cart items to `p`.  The handler guards
on Python truthiness of the price, so the changed price 0 (a free product)
is skipped: the cart keeps unit price 150, which is not the carried
price 0. -/
theorem product_updated_zero_price_cex :
    ((handle_product_event "product.updated" (some "prod-9") (some 0)
        mixedCartStore).1.lookup "user-1").map
      (fun c => c.items.map CartItem.unit_price) = some [150, 30] ∧
    (150 : ℚ) ≠ 0 := by
  constructor
  · simp [handle_product_event, mixedCartStore, List.lookup]
  · norm_num

/-- C9 (amended): for a `product.updated` event carrying a truthy product
id `pid` and a truthy (nonzero) changed price `p`, the handler rewrites
`unit_price` to `p` on exactly the cart items whose `product_id` is `pid`,
leaving every other field of every item, every cart's identity and the
store's shape untouched.  (The cart service holds no orders, so no placed
order's snapshot can be affected; a price of 0 is skipped, per the
counterexample.) -/
theorem product_updated_price_sync_spec (pid : String) (p : ℚ)
    (carts : CartStore) (hpid : pid ≠ "") (hp : p ≠ 0) :
    List.Forall₂ (fun uc uc' =>
        uc'.1 = uc.1 ∧ uc'.2.user_id = uc.2.user_id ∧
        List.Forall₂ (fun it it' =>
            it'.item_id = it.item_id ∧
            it'.product_id = it.product_id ∧
            it'.product_name = it.product_name ∧
            it'.quantity = it.quantity ∧
            it'.unit_price =
              (if it.product_id = pid then p else it.unit_price))
          uc.2.items uc'.2.items)
      carts
      (handle_product_event "product.updated" (some pid) (some p)
        carts).1 := by
  have hcond : pid ≠ "" ∧ p ≠ 0 := ⟨hpid, hp⟩
  simp only [handle_product_event, if_pos rfl]
  rw [if_pos hcond]
  simp only [if_true]
  rw [List.forall₂_map_right_iff]
  rw [List.forall₂_same]
  intro uc _
  refine ⟨rfl, rfl, ?_⟩
  rw [List.forall₂_map_right_iff, List.forall₂_same]
  intro it _
  by_cases hm : it.product_id = pid
  · simp [hm]
  · simp [hm]

/-- C9, witness: a changed price of 25 on `prod-9` rewrites only the
matching item of the mixed cart store. -/
theorem product_updated_price_sync_spec_witness :
    List.Forall₂ (fun uc uc' =>
        uc'.1 = uc.1 ∧ uc'.2.user_id = uc.2.user_id ∧
        List.Forall₂ (fun it it' =>
            it'.item_id = it.item_id ∧
            it'.product_id = it.product_id ∧
            it'.product_name = it.product_name ∧
            it'.quantity = it.quantity ∧
            it'.unit_price =
              (if it.product_id = "prod-9" then (25 : ℚ)
               else it.unit_price))
          uc.2.items uc'.2.items)
      mixedCartStore
      (handle_product_event "product.updated" (some "prod-9") (some 25)
        mixedCartStore).1 :=
  product_updated_price_sync_spec "prod-9" 25 mixedCartStore
    (by simp) (by norm_num)

end Saga
